import Mathlib

/-!
Shallow embedding of the analytics core of the meta-daily-report repository
(source files: src/data/meta_api.py, src/config/benchmarks.py,
src/analysis/benchmark.py, src/analysis/trend.py, src/analysis/anomaly.py,
src/report/generator.py), together with theorems settling the frozen claims
about it.  Python float arithmetic is idealised as exact rational
arithmetic (Rat); Python dictionaries of numeric metrics are modelled as
association lists with a lookup that defaults to 0, mirroring dict.get(k, 0).
-/

/-- A Python dict mapping metric names to numbers, as used throughout the
analytics code. -/
abbrev Dict := List (String × Rat)

/-- Model of d.get(k, 0): value of the first binding of k, else 0. -/
def dget (d : Dict) (k : String) : Rat :=
  (d.lookup k).getD 0

/-- Round-half-to-even on a rational, the rounding mode of Python's
built-in round function (idealised over exact rationals). -/
def roundHalfEven (q : Rat) : Int :=
  let n := ⌊q⌋
  let frac := q - n
  if frac < 1/2 then n
  else if 1/2 < frac then n + 1
  else if n % 2 = 0 then n else n + 1

/-- Model of Python round(x, ndigits) on exact rationals. -/
def pyRound (ndigits : Nat) (x : Rat) : Rat :=
  (roundHalfEven (x * 10 ^ ndigits) : Rat) / 10 ^ ndigits

/-- First-occurrence-preserving de-duplication, the semantics of Python's
list(dict.fromkeys(xs)); also used to count distinct keys as set(xs) does. -/
def pyDedup {α : Type} [DecidableEq α] (l : List α) : List α :=
  l.foldl (fun acc x => if x ∈ acc then acc else acc ++ [x]) []

/-- One metric's benchmark configuration, from the MetricBenchmark dataclass
in src/config/benchmarks.py. -/
structure MetricBenchmark where
  industry_min : Rat
  industry_max : Rat
  excellent : Rat
  alert_threshold : Rat
  higher_better : Bool := true
deriving DecidableEq

/-- The built-in benchmark table BenchmarkManager.BENCHMARKS. -/
def BENCHMARKS : List (String × MetricBenchmark) :=
  [("ROAS", { industry_min := 2.5, industry_max := 3.5, excellent := 4.0,
              alert_threshold := 2.0, higher_better := true }),
   ("CPC", { industry_min := 0.50, industry_max := 1.20, excellent := 0.50,
             alert_threshold := 2.00, higher_better := false }),
   ("CTR", { industry_min := 0.8, industry_max := 1.5, excellent := 2.0,
             alert_threshold := 0.5, higher_better := true }),
   ("CPA", { industry_min := 15, industry_max := 35, excellent := 15,
             alert_threshold := 50, higher_better := false }),
   ("Frequency", { industry_min := 1.5, industry_max := 3.0, excellent := 2.5,
                   alert_threshold := 4.0, higher_better := false }),
   ("ConversionRate", { industry_min := 2.0, industry_max := 4.0, excellent := 5.0,
                        alert_threshold := 1.0, higher_better := true })]

/-- A caller-supplied custom-benchmark value: either not a mapping (the
isinstance check in _apply_custom_benchmarks fails) or a mapping carrying
a full, well-formed MetricBenchmark keyword set. -/
inductive CustomVal where
  | nonMapping
  | mapping (b : MetricBenchmark)
deriving DecidableEq

/-- Replacing the value bound to an existing key of a Python dict keeps the
key's insertion position. -/
def setAssoc (l : List (String × MetricBenchmark)) (k : String)
    (v : MetricBenchmark) : List (String × MetricBenchmark) :=
  l.map (fun p => if p.1 = k then (k, v) else p)

/-- BenchmarkManager._apply_custom_benchmarks: each custom entry replaces the
benchmark of the same name if that name is already registered and the value
is a mapping; otherwise the entry is skipped. -/
def _apply_custom_benchmarks (base : List (String × MetricBenchmark))
    (custom : List (String × CustomVal)) : List (String × MetricBenchmark) :=
  custom.foldl (fun b p =>
    match p.2 with
    | .mapping mb => if (b.lookup p.1).isSome then setAssoc b p.1 mb else b
    | .nonMapping => b) base

/-- The dict returned by BenchmarkManager.evaluate.  Python returns dicts
with different key sets on the two paths, so every key that can be absent is
an Option, none meaning the key is missing from the returned dict. -/
structure EvalDict where
  status : String
  message : Option String
  rating : Option String
  industry_range : Option (Rat × Rat)
  excellent : Option Rat
  gap_percent : Option Rat
  is_alert : Option Bool
deriving DecidableEq

/-- BenchmarkManager.evaluate from src/config/benchmarks.py.  The
industry_range string of the source is kept as the pair of its two numeric
components. -/
def evaluate (benchmarks : List (String × MetricBenchmark)) (metric : String)
    (value : Rat) : EvalDict :=
  match benchmarks.lookup metric with
  | none =>
      { status := "unknown", message := some "未知指标", rating := none,
        industry_range := none, excellent := none, gap_percent := none,
        is_alert := none }
  | some b =>
      let sr : String × String :=
        if b.higher_better then
          if b.excellent ≤ value then ("excellent", "✅")
          else if b.industry_min ≤ value then ("good", "✅")
          else if value < b.alert_threshold then ("critical", "🚨")
          else ("warning", "⚠️")
        else
          if value ≤ b.excellent then ("excellent", "✅")
          else if value ≤ b.industry_max then ("good", "✅")
          else if b.alert_threshold < value then ("critical", "🚨")
          else ("warning", "⚠️")
      let gap_percent : Rat :=
        if sr.1 ≠ "unknown" then
          if b.higher_better then (value - b.industry_max) / b.industry_max * 100
          else (b.industry_min - value) / b.industry_min * 100
        else 0
      { status := sr.1, message := none, rating := some sr.2,
        industry_range := some (b.industry_min, b.industry_max),
        excellent := some b.excellent,
        gap_percent := some (pyRound 1 gap_percent),
        is_alert := some (sr.1 == "critical") }

/-- The fixed status ordering of BenchmarkAnalyzer._get_status_change. -/
def statusOrder : List String := ["critical", "warning", "good", "excellent"]

/-- status_order.index(s): position of s in the fixed ordering, none when the
lookup raises ValueError. -/
def statusIndex? (s : String) : Option Nat :=
  if s = "critical" then some 0
  else if s = "warning" then some 1
  else if s = "good" then some 2
  else if s = "excellent" then some 3
  else none

/-- BenchmarkAnalyzer._get_status_change from src/analysis/benchmark.py:
an empty (falsy) status is given index 1 before the list lookup runs; a
ValueError from either lookup is caught and answered with stable. -/
def _get_status_change (previous current : String) : String :=
  match (if previous = "" then some 1 else statusIndex? previous),
        (if current = "" then some 1 else statusIndex? current) with
  | some p, some c =>
      if p < c then "improved" else if c < p then "declined" else "stable"
  | _, _ => "stable"

/-- The status-delta rule exactly as the specification words it (for the C3
refinement comparison): every unrecognized or missing status is treated as
position 1, that of warning. -/
def statusDeltaSpec (previous current : String) : String :=
  let p := (statusIndex? previous).getD 1
  let c := (statusIndex? current).getD 1
  if p < c then "improved" else if c < p then "declined" else "stable"

/-- One metric's entry in the dict built by TrendAnalyzer.compare_periods. -/
structure TrendEntry where
  current : Rat
  previous : Rat
  change_percent : Rat
  trend : String
deriving DecidableEq

/-- The fixed metric list iterated by compare_periods. -/
def trendMetrics : List String :=
  ["spend", "clicks", "impressions", "conversions", "roas", "cpc", "ctr",
   "cpa", "conversion_rate"]

/-- TrendAnalyzer._get_trend: the arrow symbol for a percent change. -/
def _get_trend (change_percent : Rat) : String :=
  if 5 < change_percent then "↑"
  else if change_percent < -5 then "↓"
  else "→"

/-- The loop body of compare_periods for one metric name. -/
def comparisonEntry (current_data previous_data : Dict) (m : String) :
    TrendEntry :=
  let c := dget current_data m
  let p := dget previous_data m
  let change := if 0 < p then (c - p) / p * 100 else if c = 0 then 0 else 100
  { current := pyRound 2 c, previous := pyRound 2 p,
    change_percent := pyRound 2 change, trend := _get_trend change }

/-- TrendAnalyzer.compare_periods from src/analysis/trend.py. -/
def compare_periods (current_data previous_data : Dict) :
    List (String × TrendEntry) :=
  trendMetrics.map (fun m => (m, comparisonEntry current_data previous_data m))

/-- One metric's entry in the metrics_trend dict of analyze_multi_period. -/
structure MetricTrend where
  values : List (String × Rat)
  trend : String
  trend_status : String
deriving DecidableEq

/-- The result dict of TrendAnalyzer.analyze_multi_period (the
trend_summary key of the source stays an empty dict and is omitted). -/
structure MultiPeriodResult where
  periods : List Int
  metrics_trend : List (String × MetricTrend)
deriving DecidableEq

/-- The fixed metric subset analysed by analyze_multi_period. -/
def multiMetrics : List String := ["roas", "cpc", "ctr", "conversions", "spend"]

/-- The per-metric body of analyze_multi_period: the value sequence over the
sorted periods (each value rounded to 2 decimals with a period label), and
the trend classification comparing the last value against the first. -/
def buildMetricTrend (periods : List Int) (data : List (Int × Dict))
    (m : String) : MetricTrend :=
  let values := periods.map (fun days =>
    (toString days ++ "天", pyRound 2 (dget ((data.lookup days).getD []) m)))
  if 2 ≤ values.length then
    let first := (values.head?.getD ("", 0)).2
    let last := (values.getLast?.getD ("", 0)).2
    if first * 1.1 < last then
      { values := values, trend := "持续上升", trend_status := "positive" }
    else if last < first * 0.9 then
      { values := values, trend := "持续下降", trend_status := "negative" }
    else
      { values := values, trend := "相对稳定", trend_status := "neutral" }
  else
    { values := values, trend := "数据不足", trend_status := "unknown" }

/-- TrendAnalyzer.analyze_multi_period from src/analysis/trend.py; the input
dict keyed by period length is an association list with distinct keys. -/
def analyze_multi_period (data : List (Int × Dict)) : MultiPeriodResult :=
  let periods := (pyDedup (data.map Prod.fst)).insertionSort (· ≤ ·)
  { periods := periods,
    metrics_trend := multiMetrics.map (fun m => (m, buildMetricTrend periods data m)) }

/-- A proleptic-Gregorian calendar date as datetime.strptime validates it. -/
structure PyDate where
  year : Nat
  month : Nat
  day : Nat
deriving DecidableEq

/-- Whether a year is a Gregorian leap year. -/
def isLeap (y : Nat) : Bool := (y % 4 = 0 && y % 100 != 0) || y % 400 = 0

/-- Number of days in a month of a given year. -/
def daysInMonth (y m : Nat) : Nat :=
  if m = 2 then (if isLeap y then 29 else 28)
  else [31, 28, 31, 30, 31, 30, 31, 31, 30, 31, 30, 31].getD (m - 1) 0

/-- Cumulative days before each month in a non-leap year. -/
def daysBeforeMonth (m : Nat) : Nat :=
  [0, 31, 59, 90, 120, 151, 181, 212, 243, 273, 304, 334].getD (m - 1) 0

/-- date.toordinal(): day count with 0001-01-01 as day 1. -/
def toOrdinal (dt : PyDate) : Nat :=
  365 * (dt.year - 1) + (dt.year - 1) / 4 - (dt.year - 1) / 100
    + (dt.year - 1) / 400 + daysBeforeMonth dt.month
    + (if 2 < dt.month && isLeap dt.year then 1 else 0) + dt.day

/-- datetime.weekday(): 0 = Monday .. 6 = Sunday (0001-01-01 was a Monday). -/
def weekdayOf (dt : PyDate) : Nat := (toOrdinal dt + 6) % 7

/-- str.split on a single dash, over the character list of the string. -/
def splitDash : List Char → List (List Char)
  | [] => [[]]
  | c :: rest =>
    let r := splitDash rest
    if c = '-' then [] :: r
    else
      match r with
      | g :: gs => (c :: g) :: gs
      | [] => [[c]]

/-- The numeric value of a decimal digit character, none otherwise. -/
def digit? (c : Char) : Option Nat :=
  if '0' ≤ c ∧ c ≤ '9' then some (c.toNat - '0'.toNat) else none

/-- Accumulating decimal parser over a digit list. -/
def decToNatAux : List Char → Nat → Option Nat
  | [], acc => some acc
  | c :: cs, acc =>
    match digit? c with
    | some d => decToNatAux cs (acc * 10 + d)
    | none => none

/-- Parse a non-empty all-digit character list as a natural number. -/
def decToNat? (cs : List Char) : Option Nat :=
  if cs.isEmpty then none else decToNatAux cs 0

/-- Model of datetime.strptime(s, the dashed year-month-day format): three
dash-separated digit groups of at most 4, 2 and 2 digits, with the usual
calendar-range validation; none models the ValueError path. -/
def parseDate (s : String) : Option PyDate :=
  match splitDash s.data with
  | [ys, ms, ds] =>
    match decToNat? ys, decToNat? ms, decToNat? ds with
    | some y, some m, some d =>
      if ys.length ≤ 4 ∧ ms.length ≤ 2 ∧ ds.length ≤ 2 ∧ 1 ≤ y ∧ 1 ≤ m ∧
          m ≤ 12 ∧ 1 ≤ d ∧ d ≤ daysInMonth y m
      then some ⟨y, m, d⟩ else none
    | _, _, _ => none
  | _ => none

/-- One row of per-day data as consumed by detect_weekly_pattern: the
date_start string plus the numeric metric fields. -/
structure DailyRecord where
  date_start : String
  fields : Dict
deriving DecidableEq

/-- Arithmetic mean of a list, statistics.mean over exact rationals. -/
def listMean (l : List Rat) : Rat := l.sum / l.length

/-- The loop body of detect_weekly_pattern: route a record's metric value
into the weekday or weekend bucket, skipping missing or unparseable dates. -/
def weeklyStep (metric : String) (acc : List Rat × List Rat)
    (item : DailyRecord) : List Rat × List Rat :=
  if item.date_start = "" then acc
  else
    match parseDate item.date_start with
    | none => acc
    | some dt =>
      let v := dget item.fields metric
      if weekdayOf dt < 5 then (acc.1 ++ [v], acc.2) else (acc.1, acc.2 ++ [v])

/-- The dict returned by TrendAnalyzer.detect_weekly_pattern. -/
structure WeeklyPattern where
  weekday_avg : Rat
  weekend_avg : Rat
  ratio : Rat
  pattern : String
deriving DecidableEq

/-- TrendAnalyzer.detect_weekly_pattern from src/analysis/trend.py. -/
def detect_weekly_pattern (daily_data : List DailyRecord) (metric : String) :
    WeeklyPattern :=
  let p := daily_data.foldl (weeklyStep metric) ([], [])
  let weekday_avg := if p.1.isEmpty then 0 else listMean p.1
  let weekend_avg := if p.2.isEmpty then 0 else listMean p.2
  let ratio := if 0 < weekend_avg then weekday_avg / weekend_avg else 0
  { weekday_avg := pyRound 2 weekday_avg,
    weekend_avg := pyRound 2 weekend_avg,
    ratio := pyRound 2 ratio,
    pattern :=
      if ratio < 0.9 then "周末表现更好"
      else if 1.1 < ratio then "工作日表现更好"
      else "无明显差异" }

/-- Boolean hypothesis of claim C10: every record whose date parses falls on
a weekday (Monday to Friday). -/
def allWeekday (daily_data : List DailyRecord) : Bool :=
  daily_data.all (fun item =>
    match parseDate item.date_start with
    | some d => decide (weekdayOf d < 5)
    | none => true)

/-- The four alert thresholds the AnomalyDetector is constructed with. -/
structure Thresholds where
  roas_min : Rat
  cpc_max : Rat
  no_conversion_spend : Rat
  frequency_max : Rat
deriving DecidableEq

/-- The default thresholds from src/config/settings.py (environment
defaults 2.0, 2.0, 100.0, 4.0). -/
def defaultThresholds : Thresholds :=
  { roas_min := 2, cpc_max := 2, no_conversion_spend := 100, frequency_max := 4 }

/-- The threshold field of an Anomaly is either a number or the free-text
description built for the no-conversion rule (which embeds the
no_conversion_spend threshold). -/
inductive ThresholdVal where
  | num (x : Rat)
  | noConvText (spend_threshold : Rat)
deriving DecidableEq

/-- Fixed-point rendering with two decimals, the format spec used in the
no-conversion suggestion text. -/
def formatFix2 (x : Rat) : String :=
  let n : Int := roundHalfEven (x * 100)
  let sign := if n < 0 then "-" else ""
  let m := n.natAbs
  let r := m % 100
  sign ++ toString (m / 100) ++ "." ++ (if r < 10 then "0" else "") ++ toString r

/-- An anomaly record from src/analysis/anomaly.py (the wall-clock creation
timestamp is omitted from the model). -/
structure Anomaly where
  metric : String
  value : Rat
  threshold : ThresholdVal
  campaign : String
  severity : String
  suggestion : String
deriving DecidableEq

/-- The suggestion text of the account-level no-conversion rule, embedding
the spend formatted to two decimals. -/
def noConvSuggestion (spend : Rat) : String :=
  "已花费 $" ++ formatFix2 spend ++ " 但无转化，请检查转化跟踪设置和着陆页"

/-- AnomalyDetector._detect_account_anomalies from src/analysis/anomaly.py:
four independent rules appended in a fixed order. -/
def _detect_account_anomalies (th : Thresholds) (data : Dict) : List Anomaly :=
  (if dget data "roas" < th.roas_min then
    [{ metric := "ROAS", value := dget data "roas", threshold := .num th.roas_min,
       campaign := "Account", severity := "critical",
       suggestion := "ROAS 低于告警阈值，建议检查广告目标设置和受众定位" }]
   else [])
  ++ (if th.cpc_max < dget data "cpc" then
    [{ metric := "CPC", value := dget data "cpc", threshold := .num th.cpc_max,
       campaign := "Account", severity := "warning",
       suggestion := "CPC 接近告警阈值，建议检查受众重叠情况和出价策略" }]
   else [])
  ++ (if dget data "conversions" = 0 ∧ th.no_conversion_spend < dget data "spend" then
    [{ metric := "转化", value := 0, threshold := .noConvText th.no_conversion_spend,
       campaign := "Account", severity := "critical",
       suggestion := noConvSuggestion (dget data "spend") }]
   else [])
  ++ (if th.frequency_max < dget data "frequency" then
    [{ metric := "Frequency", value := dget data "frequency",
       threshold := .num th.frequency_max,
       campaign := "Account", severity := "warning",
       suggestion := "展示频次过高，可能导致广告疲劳，建议扩展受众或更换创意" }]
   else [])

/-- ReportGenerator._generate_insights from src/report/generator.py.  Of
each benchmark-evaluation entry only the is_alert flag is read, so the
benchmark argument carries (metric name, is_alert) pairs. -/
def _generate_insights (comparison : List (String × TrendEntry))
    (trend_analysis : MultiPeriodResult)
    (benchmark_evaluation : List (String × Bool))
    (anomalies : List Anomaly) : List String :=
  let roasTrendStatus : Option String :=
    (trend_analysis.metrics_trend.lookup "roas").map (·.trend_status)
  let l1 : List String :=
    if roasTrendStatus = some "positive" then
      ["✅ ROAS 持续上升，当前优化策略有效，建议继续保持"]
    else if roasTrendStatus = some "negative" then
      ["⚠️ ROAS 持续下降，建议检查受众定位和广告创意"]
    else []
  let spend_change := ((comparison.lookup "spend").map (·.change_percent)).getD 0
  let conv_change := ((comparison.lookup "conversions").map (·.change_percent)).getD 0
  let l2 : List String :=
    if 20 < spend_change ∧ conv_change < 10 then
      ["📉 花费增加但转化未同步增长，建议优化出价策略"]
    else []
  let l3 : List String := benchmark_evaluation.filterMap (fun p =>
    if p.2 then some ("🚨 " ++ p.1 ++ " 低于行业标准，需要重点关注和优化") else none)
  let l4 : List String := anomalies.filterMap (fun a =>
    if a.severity = "critical" ∧ a.suggestion ≠ "" then
      some ("💡 " ++ a.suggestion) else none)
  (pyDedup (l1 ++ l2 ++ l3 ++ l4)).take 5

/-- One raw per-day insight row as consumed by aggregate_metrics, its numeric
fields already coerced the way the source coerces them (int for counts,
float for money); a missing field is the coerced 0. -/
structure InsightRow where
  date_start : String
  impressions : Int
  clicks : Int
  spend : Rat
  conversions : Int
  conversion_values : Rat
deriving DecidableEq

/-- The summed totals of aggregate_metrics, before the derived fields. -/
structure Totals where
  impressions : Int
  clicks : Int
  spend : Rat
  conversions : Int
  conversion_values : Rat
  days : Nat
deriving DecidableEq

/-- The summation loop of aggregate_metrics plus the distinct-day count. -/
def totalsOf (data : List InsightRow) : Totals :=
  { impressions := (data.map (·.impressions)).sum,
    clicks := (data.map (·.clicks)).sum,
    spend := (data.map (·.spend)).sum,
    conversions := (data.map (·.conversions)).sum,
    conversion_values := (data.map (·.conversion_values)).sum,
    days := (pyDedup (data.map (·.date_start))).length }

/-- The aggregate dict built by aggregate_metrics: totals plus derived
fields. -/
structure MetricAggregate where
  impressions : Int
  clicks : Int
  spend : Rat
  conversions : Int
  conversion_values : Rat
  days : Nat
  ctr : Rat
  cpc : Rat
  cpa : Rat
  conversion_rate : Rat
  roas : Rat
  frequency : Rat
deriving DecidableEq

/-- The three possible outcomes of MetaAdsClient.aggregate_metrics: the
empty dict for empty input, a ZeroDivisionError fault, or the aggregate. -/
inductive AggResult where
  | empty
  | fault
  | ok (a : MetricAggregate)
deriving DecidableEq

/-- MetaAdsClient.aggregate_metrics from src/data/meta_api.py.  Every
division is guarded exactly as in the source; the conversion-rate line
divides conversions by clicks while being guarded only by conversions > 0,
so it raises ZeroDivisionError (fault) when conversions > 0 and clicks = 0. -/
def aggregate_metrics (data : List InsightRow) : AggResult :=
  if data.isEmpty then .empty
  else
    let t := totalsOf data
    if 0 < t.conversions ∧ t.clicks = 0 then .fault
    else
      .ok { impressions := t.impressions, clicks := t.clicks, spend := t.spend,
            conversions := t.conversions, conversion_values := t.conversion_values,
            days := t.days,
            ctr := if 0 < t.impressions then (t.clicks : Rat) / (t.impressions : Rat) * 100 else 0,
            cpc := if 0 < t.clicks then t.spend / (t.clicks : Rat) else 0,
            cpa := if 0 < t.conversions then t.spend / (t.conversions : Rat) else 0,
            conversion_rate := if 0 < t.conversions then (t.conversions : Rat) / (t.clicks : Rat) * 100 else 0,
            roas := if 0 < t.spend then t.conversion_values / t.spend else 0,
            frequency := if 0 < t.impressions ∧ 0 < t.days then (t.impressions : Rat) / (t.days : Rat) else 0 }

/-- Projection of the conversion-rate field of an aggregation outcome. -/
def aggConversionRate? : AggResult → Option Rat
  | .ok a => some a.conversion_rate
  | _ => none

/-- Projection of the spend field of an aggregation outcome. -/
def aggSpend? : AggResult → Option Rat
  | .ok a => some a.spend
  | _ => none

/-- The built-in ROAS benchmark entry, for concrete witnesses. -/
def roasBenchmark : MetricBenchmark :=
  { industry_min := 2.5, industry_max := 3.5, excellent := 4.0,
    alert_threshold := 2.0, higher_better := true }

/-- The dict evaluate returns for an unregistered metric name. -/
def unknownEvalDict : EvalDict :=
  { status := "unknown", message := some "未知指标", rating := none,
    industry_range := none, excellent := none, gap_percent := none,
    is_alert := none }

/-- A concrete insight row with zero spend but five conversions over ten
clicks (the C1 counterexample input). -/
def rowSpendZero : InsightRow :=
  { date_start := "2024-01-01", impressions := 100, clicks := 10, spend := 0,
    conversions := 5, conversion_values := 0 }

/-- A concrete insight row with conversions but no clicks, on which the
conversion-rate line of aggregate_metrics divides by zero. -/
def rowFaulty : InsightRow :=
  { date_start := "2024-01-01", impressions := 0, clicks := 0, spend := 0,
    conversions := 5, conversion_values := 0 }

/-- A concrete all-zero insight row, for the C1 witness. -/
def rowAllZero : InsightRow :=
  { date_start := "2024-01-01", impressions := 0, clicks := 0, spend := 0,
    conversions := 0, conversion_values := 0 }

/-- The aggregate produced from the single all-zero row. -/
def aggAllZero : MetricAggregate :=
  { impressions := 0, clicks := 0, spend := 0, conversions := 0,
    conversion_values := 0, days := 1, ctr := 0, cpc := 0, cpa := 0,
    conversion_rate := 0, roas := 0, frequency := 0 }

/-- Current-period dict of the C5 counterexample: spend 4. -/
def cpCur : Dict := [("spend", 4)]

/-- Previous-period dict of the C5 counterexample: spend 3. -/
def cpPrev : Dict := [("spend", 3)]

/-- The multi-period input of the C6 example: roas 10 over 1 day, 10 over
3 days, 5 over 7 days. -/
def mpData : List (Int × Dict) :=
  [(1, [("roas", 10)]), (3, [("roas", 10)]), (7, [("roas", 5)])]

/-- The account aggregate of the C7 example: roas 1.0 and spend 150 with no
conversions, cpc and frequency absent (hence 0, within their thresholds). -/
def anomalyData : Dict := [("roas", 1), ("spend", 150)]

/-- An account aggregate violating all four account-level anomaly rules at
the default thresholds. -/
def allFireData : Dict :=
  [("roas", 1), ("cpc", 3), ("spend", 150), ("conversions", 0), ("frequency", 5)]

/-- A critical anomaly with suggestion text S, for the C8 example. -/
def anomA : Anomaly :=
  { metric := "A", value := 1, threshold := .num 1, campaign := "Account",
    severity := "critical", suggestion := "S" }

/-- A second, distinct critical anomaly carrying the same suggestion text. -/
def anomB : Anomaly :=
  { metric := "B", value := 2, threshold := .num 1, campaign := "Account",
    severity := "critical", suggestion := "S" }

/-- Six benchmark entries that are all alert-flagged, for the C8 truncation
example. -/
def benchSix : List (String × Bool) :=
  [("M1", true), ("M2", true), ("M3", true), ("M4", true), ("M5", true),
   ("M6", true)]

/-- An empty multi-period analysis result. -/
def emptyMPR : MultiPeriodResult := { periods := [], metrics_trend := [] }

/-- A single weekday record (2024-01-01 is a Monday), for the C10 witness. -/
def weekdayDaily : List DailyRecord :=
  [{ date_start := "2024-01-01", fields := [("roas", 3)] }]

theorem roundHalfEven_intCast (n : Int) : roundHalfEven (n : Rat) = n := by
  norm_num [roundHalfEven]

theorem pyRound_intCast (d : Nat) (n : Int) : pyRound d (n : Rat) = n := by
  unfold pyRound
  rw [show ((n : Rat) * 10 ^ d) = ((n * 10 ^ d : Int) : Rat) by push_cast; ring,
    roundHalfEven_intCast]
  push_cast
  rw [mul_div_assoc, div_self (by positivity), mul_one]

theorem pyRound_zero (d : Nat) : pyRound d 0 = 0 := by
  simpa using pyRound_intCast d 0

theorem pyDedup_foldl_nodup {α : Type} [DecidableEq α] :
    ∀ (l acc : List α), acc.Nodup →
      (l.foldl (fun acc x => if x ∈ acc then acc else acc ++ [x]) acc).Nodup := by
  intro l
  induction l with
  | nil => intro acc h; simpa using h
  | cons a l ih =>
    intro acc h
    simp only [List.foldl_cons]
    by_cases ha : a ∈ acc
    · rw [if_pos ha]; exact ih acc h
    · rw [if_neg ha]
      refine ih _ ?_
      simp [List.nodup_append, h, ha]

theorem pyDedup_nodup {α : Type} [DecidableEq α] (l : List α) :
    (pyDedup l).Nodup :=
  pyDedup_foldl_nodup l [] List.nodup_nil

/-- Looking a key up in an association list built by tagging each element of
a key list with a function of it returns that function of the key. -/
theorem lookup_map_self {β : Type} (f : String → β) :
    ∀ (l : List String) (m : String), m ∈ l →
      (l.map (fun x => (x, f x))).lookup m = some (f m) := by
  intro l
  induction l with
  | nil => intro m h; cases h
  | cons a l ih =>
    intro m h
    simp only [List.map_cons, List.lookup]
    by_cases hm : m = a
    · subst hm; simp
    · have hba : (m == a) = false := by simpa using hm
      simp only [hba]
      exact ih m (by rcases List.mem_cons.1 h with h' | h' <;> [exact absurd h' hm; exact h'])

/-- A successful lookup in such an association list determines the value. -/
theorem lookup_map_eq {β : Type} (f : String → β) :
    ∀ (l : List String) (m : String) (t : β),
      (l.map (fun x => (x, f x))).lookup m = some t → t = f m := by
  intro l
  induction l with
  | nil => intro m t h; simp [List.lookup] at h
  | cons a l ih =>
    intro m t h
    simp only [List.map_cons, List.lookup] at h
    by_cases hm : m = a
    · subst hm; simp at h; exact h.symm
    · have hba : (m == a) = false := by simpa using hm
      simp only [hba] at h
      exact ih m t h

/-- Claim C3, counterexample: the claim prescribes that an unrecognized
status such as "bogus" takes position 1 (warning), which would make the
change from "excellent" a decline, but _get_status_change answers "stable"
for every unrecognized non-empty status. -/
theorem claim_C3_counterexample :
    _get_status_change "excellent" "bogus" = "stable" ∧
    statusDeltaSpec "excellent" "bogus" = "declined" ∧
    _get_status_change "excellent" "bogus" ≠ statusDeltaSpec "excellent" "bogus" := by
  refine ⟨by decide, by decide, by decide⟩

/-- Claim C3 as amended: _get_status_change compares positions in the fixed
ordering critical < warning < good < excellent and reports improved, declined
or stable; a missing (empty) status takes the position of warning (index 1),
but an unrecognized non-empty status on either side answers "stable"
directly; the three concrete examples of the claim hold. -/
theorem claim_C3_amended :
    (∀ p c, (p = "" ∨ p ∈ statusOrder) → (c = "" ∨ c ∈ statusOrder) →
      _get_status_change p c = statusDeltaSpec p c) ∧
    (∀ p c, p ≠ "" → p ∉ statusOrder → _get_status_change p c = "stable") ∧
    (∀ p c, c ≠ "" → c ∉ statusOrder → _get_status_change p c = "stable") ∧
    _get_status_change "critical" "excellent" = "improved" ∧
    _get_status_change "good" "good" = "stable" ∧
    _get_status_change "excellent" "warning" = "declined" := by
  refine ⟨?_, ?_, ?_, by decide, by decide, by decide⟩
  · intro p c hp hc
    have hp' : p = "" ∨ p = "critical" ∨ p = "warning" ∨ p = "good" ∨ p = "excellent" := by
      simpa [statusOrder] using hp
    have hc' : c = "" ∨ c = "critical" ∨ c = "warning" ∨ c = "good" ∨ c = "excellent" := by
      simpa [statusOrder] using hc
    rcases hp' with rfl | rfl | rfl | rfl | rfl <;>
      rcases hc' with rfl | rfl | rfl | rfl | rfl <;> decide
  · intro p c hne hnm
    simp only [statusOrder, List.mem_cons, List.not_mem_nil, or_false] at hnm
    push_neg at hnm
    obtain ⟨h1, h2, h3, h4⟩ := hnm
    simp [_get_status_change, statusIndex?, hne, h1, h2, h3, h4]
  · intro p c hne hnm
    simp only [statusOrder, List.mem_cons, List.not_mem_nil, or_false] at hnm
    push_neg at hnm
    obtain ⟨h1, h2, h3, h4⟩ := hnm
    unfold _get_status_change
    have hcn : (if c = "" then some 1 else statusIndex? c) = none := by
      simp [statusIndex?, hne, h1, h2, h3, h4]
    rw [hcn]
    cases (if p = "" then some 1 else statusIndex? p) <;> rfl

/-- Witness for the amended C3 at the concrete pair (good, good). -/
theorem claim_C3_witness :
    ("good" = "" ∨ "good" ∈ statusOrder) ∧
    _get_status_change "good" "good" = statusDeltaSpec "good" "good" :=
  ⟨Or.inr (by decide),
   claim_C3_amended.1 "good" "good" (Or.inr (by decide)) (Or.inr (by decide))⟩

/-- Claim C2: for every registered benchmark, evaluate classifies the value
by the four-way cascade of the claim, with the comparisons mirrored
according to the higher-is-better flag. -/
theorem claim_C2 : ∀ (bm : List (String × MetricBenchmark)) (name : String)
    (b : MetricBenchmark) (v : Rat), bm.lookup name = some b →
    (evaluate bm name v).status =
      (if b.higher_better then
        if b.excellent ≤ v then "excellent"
        else if b.industry_min ≤ v then "good"
        else if v < b.alert_threshold then "critical"
        else "warning"
      else
        if v ≤ b.excellent then "excellent"
        else if v ≤ b.industry_max then "good"
        else if b.alert_threshold < v then "critical"
        else "warning") := by
  intro bm name b v h
  unfold evaluate
  rw [h]
  by_cases hb : b.higher_better <;> simp only [hb] <;> split_ifs <;> rfl

/-- Witness for C2 at the built-in ROAS benchmark and value 5. -/
theorem claim_C2_witness :
    BENCHMARKS.lookup "ROAS" = some roasBenchmark ∧
    (evaluate BENCHMARKS "ROAS" 5).status = "excellent" := by
  have hl : BENCHMARKS.lookup "ROAS" = some roasBenchmark := by
    simp [BENCHMARKS, roasBenchmark, List.lookup]
  refine ⟨hl, ?_⟩
  rw [claim_C2 BENCHMARKS "ROAS" _ 5 hl]
  norm_num [roasBenchmark]

/-- Claim C4, counterexample: for an unregistered metric, evaluate answers
status unknown but the returned dict carries no gap key at all, so the gap
is not 0 as the claim states. -/
theorem claim_C4_counterexample :
    (evaluate BENCHMARKS "XYZ" 1).status = "unknown" ∧
    (evaluate BENCHMARKS "XYZ" 1).gap_percent ≠ some 0 := by
  have hl : BENCHMARKS.lookup "XYZ" = none := by simp [BENCHMARKS, List.lookup]
  constructor <;> simp [evaluate, hl]

/-- Claim C4 as amended: for every metric name not registered in the
benchmark table, evaluate returns softly the dict with status unknown and an
explanatory message and no other keys (in particular no gap key, rather than
gap = 0), and never raises. -/
theorem claim_C4_amended : ∀ (bm : List (String × MetricBenchmark))
    (metric : String) (value : Rat), bm.lookup metric = none →
    evaluate bm metric value = unknownEvalDict := by
  intro bm metric value h
  unfold evaluate unknownEvalDict
  rw [h]

/-- Witness for the amended C4 at the unregistered name XYZ. -/
theorem claim_C4_witness :
    BENCHMARKS.lookup "XYZ" = none ∧
    evaluate BENCHMARKS "XYZ" 1 = unknownEvalDict :=
  ⟨by simp [BENCHMARKS, List.lookup],
   claim_C4_amended BENCHMARKS "XYZ" 1 (by simp [BENCHMARKS, List.lookup])⟩

theorem setAssoc_keys (l : List (String × MetricBenchmark)) (k : String)
    (v : MetricBenchmark) :
    (setAssoc l k v).map Prod.fst = l.map Prod.fst := by
  unfold setAssoc
  rw [List.map_map]
  apply List.map_congr_left
  intro p _
  by_cases h : p.1 = k
  · simp [h]
  · simp [h]

theorem applyCustom_keys : ∀ (custom : List (String × CustomVal))
    (base : List (String × MetricBenchmark)),
    (_apply_custom_benchmarks base custom).map Prod.fst = base.map Prod.fst := by
  intro custom
  induction custom with
  | nil => intro base; rfl
  | cons p rest ih =>
    intro base
    unfold _apply_custom_benchmarks
    simp only [List.foldl_cons]
    rcases p with ⟨m, v⟩
    cases v with
    | nonMapping =>
      exact ih base
    | mapping mb =>
      by_cases hs : (base.lookup m).isSome
      · have h1 : (_apply_custom_benchmarks (setAssoc base m mb) rest).map Prod.fst
            = (setAssoc base m mb).map Prod.fst := ih _
        unfold _apply_custom_benchmarks at h1
        simpa [hs, setAssoc_keys] using h1
      · have h1 : (_apply_custom_benchmarks base rest).map Prod.fst
            = base.map Prod.fst := ih _
        unfold _apply_custom_benchmarks at h1
        simpa [hs] using h1

/-- Claim C9: applying caller-supplied custom benchmark overrides never
changes the set (or order) of registered metric names, which stays exactly
the built-in six; an override keyed by an unregistered name, or whose value
is not a mapping, is skipped without effect. -/
theorem claim_C9 :
    (∀ custom, (_apply_custom_benchmarks BENCHMARKS custom).map Prod.fst =
      ["ROAS", "CPC", "CTR", "CPA", "Frequency", "ConversionRate"]) ∧
    (∀ (m : String) (v : CustomVal) (rest : List (String × CustomVal)),
      (BENCHMARKS.lookup m = none ∨ v = CustomVal.nonMapping) →
      _apply_custom_benchmarks BENCHMARKS ((m, v) :: rest) =
        _apply_custom_benchmarks BENCHMARKS rest) := by
  constructor
  · intro custom
    rw [applyCustom_keys custom BENCHMARKS]
    rfl
  · intro m v rest h
    unfold _apply_custom_benchmarks
    simp only [List.foldl_cons]
    congr 1
    rcases h with h | rfl
    · cases v with
      | nonMapping => rfl
      | mapping mb => simp [h]
    · rfl

/-- Witness for C9: an override keyed by the unregistered name XYZ is
ignored. -/
theorem claim_C9_witness :
    (BENCHMARKS.lookup "XYZ" = none ∨
      CustomVal.mapping roasBenchmark = CustomVal.nonMapping) ∧
    _apply_custom_benchmarks BENCHMARKS [("XYZ", CustomVal.mapping roasBenchmark)] =
      _apply_custom_benchmarks BENCHMARKS [] :=
  ⟨Or.inl (by simp [BENCHMARKS, List.lookup]),
   claim_C9.2 "XYZ" (CustomVal.mapping roasBenchmark) []
     (Or.inl (by simp [BENCHMARKS, List.lookup]))⟩

theorem compare_periods_lookup (cur prev : Dict) (m : String)
    (hm : m ∈ trendMetrics) :
    (compare_periods cur prev).lookup m = some (comparisonEntry cur prev m) :=
  lookup_map_self (comparisonEntry cur prev) trendMetrics m hm

theorem pyRound_two_hundred_thirds : pyRound 2 (100 / 3) = 3333 / 100 := by
  unfold pyRound roundHalfEven
  rw [show ((100 / 3 : Rat) * 10 ^ 2) = 10000 / 3 by norm_num]
  rw [show ⌊(10000 / 3 : Rat)⌋ = 3333 by rw [Int.floor_eq_iff]; norm_num]
  norm_num

/-- Claim C5, counterexample: for previous spend 3 and current spend 4 the
reported change percent is the stored rounded value 33.33, not the exact
(current - previous)/previous x 100 = 100/3 the claim asserts. -/
theorem claim_C5_counterexample :
    ((compare_periods cpCur cpPrev).lookup "spend").map (·.change_percent) =
      some (3333 / 100) ∧ (3333 / 100 : Rat) ≠ (4 - 3) / 3 * 100 := by
  constructor
  · rw [compare_periods_lookup cpCur cpPrev "spend" (by decide)]
    simp only [Option.map_some']
    unfold comparisonEntry
    have hc : dget cpCur "spend" = 4 := by simp [dget, cpCur, List.lookup]
    have hp : dget cpPrev "spend" = 3 := by simp [dget, cpPrev, List.lookup]
    simp only [hc, hp]
    rw [if_pos (by norm_num : (0 : Rat) < 3),
      show ((4 : Rat) - 3) / 3 * 100 = 100 / 3 by norm_num,
      pyRound_two_hundred_thirds]
  · norm_num

/-- Claim C5 as amended: for every metric compared by compare_periods the
reported percent change equals the claimed value rounded half-to-even to two
decimals: (current - previous)/previous x 100 when previous > 0, and for
previous = 0 exactly 0 when current = 0 and 100 otherwise (those two values
being fixed by rounding). -/
theorem claim_C5_amended : ∀ (cur prev : Dict) (m : String),
    m ∈ trendMetrics →
    ((compare_periods cur prev).lookup m).map (·.change_percent) =
      some (pyRound 2 (if 0 < dget prev m then
          (dget cur m - dget prev m) / dget prev m * 100
        else if dget cur m = 0 then 0 else 100)) := by
  intro cur prev m hm
  rw [compare_periods_lookup cur prev m hm]
  rfl

/-- Witness for the amended C5 at the metric spend with previous 3 and
current 4. -/
theorem claim_C5_witness :
    "spend" ∈ trendMetrics ∧
    ((compare_periods cpCur cpPrev).lookup "spend").map (·.change_percent) =
      some (pyRound 2 (if 0 < dget cpPrev "spend" then
          (dget cpCur "spend" - dget cpPrev "spend") / dget cpPrev "spend" * 100
        else if dget cpCur "spend" = 0 then 0 else 100)) :=
  ⟨by decide, claim_C5_amended cpCur cpPrev "spend" (by decide)⟩

theorem pyRound_nat (d : Nat) (n : Nat) : pyRound d (n : Rat) = n := by
  rw [show ((n : Rat)) = ((n : Int) : Rat) by push_cast; ring, pyRound_intCast]

theorem analyze_multi_period_lookup (data : List (Int × Dict)) (m : String)
    (hm : m ∈ multiMetrics) :
    (analyze_multi_period data).metrics_trend.lookup m =
      some (buildMetricTrend
        ((pyDedup (data.map Prod.fst)).insertionSort (· ≤ ·)) data m) :=
  lookup_map_self _ multiMetrics m hm

theorem buildMetricTrend_values (ps : List Int) (data : List (Int × Dict))
    (m : String) :
    (buildMetricTrend ps data m).values = ps.map (fun days =>
      (toString days ++ "天", pyRound 2 (dget ((data.lookup days).getD []) m))) := by
  unfold buildMetricTrend
  dsimp only
  split_ifs <;> rfl

theorem pyRound_ten : pyRound 2 (10 : Rat) = 10 := by
  have h := pyRound_nat 2 10
  norm_num at h
  exact h

theorem pyRound_five : pyRound 2 (5 : Rat) = 5 := by
  have h := pyRound_nat 2 5
  norm_num at h
  exact h

/-- Claim C6: analyze_multi_period sorts the period lengths ascending before
building each metric's value sequence (the sequence is labelled by the sorted
periods); with at least 2 points the trend is classified by comparing the
last value of the sequence against the first (rising when last exceeds
first x 1.1, falling when below first x 0.9, else stable, in the source's
positive/negative/neutral labels); with fewer than 2 points it is the
insufficient-data label (unknown); and the example periods 1 to 10, 3 to 10,
7 to 5 classify as falling. -/
theorem claim_C6 :
    (∀ data : List (Int × Dict),
      List.Sorted (· ≤ ·) (analyze_multi_period data).periods) ∧
    (∀ (data : List (Int × Dict)) (m : String) (t : MetricTrend),
      m ∈ multiMetrics →
      (analyze_multi_period data).metrics_trend.lookup m = some t →
      t.values.map Prod.fst =
        (analyze_multi_period data).periods.map (fun d => toString d ++ "天")) ∧
    (∀ (data : List (Int × Dict)) (m : String) (t : MetricTrend)
      (v0 vl : String × Rat),
      (analyze_multi_period data).metrics_trend.lookup m = some t →
      2 ≤ t.values.length →
      t.values.head? = some v0 → t.values.getLast? = some vl →
      t.trend_status = (if v0.2 * 1.1 < vl.2 then "positive"
        else if vl.2 < v0.2 * 0.9 then "negative" else "neutral")) ∧
    (∀ (data : List (Int × Dict)) (m : String) (t : MetricTrend),
      (analyze_multi_period data).metrics_trend.lookup m = some t →
      t.values.length < 2 → t.trend_status = "unknown") ∧
    ((analyze_multi_period mpData).metrics_trend.lookup "roas").map
      (·.trend_status) = some "negative" := by
  refine ⟨?_, ?_, ?_, ?_, ?_⟩
  · intro data
    show List.Sorted (· ≤ ·) ((pyDedup (data.map Prod.fst)).insertionSort (· ≤ ·))
    exact List.sorted_insertionSort _ _
  · intro data m t hm hl
    have hbt := Option.some_inj.1 ((analyze_multi_period_lookup data m hm).symm.trans hl)
    rw [← hbt, buildMetricTrend_values, List.map_map]
    rfl
  · intro data m t v0 vl hl h2 hh hgl
    have hbt := lookup_map_eq
      (fun m => buildMetricTrend
        ((pyDedup (data.map Prod.fst)).insertionSort (· ≤ ·)) data m)
      multiMetrics m t hl
    subst hbt
    rw [buildMetricTrend_values] at h2 hh hgl
    unfold buildMetricTrend
    dsimp only
    rw [if_pos h2, hh, hgl]
    simp only [Option.getD_some]
    split_ifs <;> rfl
  · intro data m t hl hlt
    have hbt := lookup_map_eq
      (fun m => buildMetricTrend
        ((pyDedup (data.map Prod.fst)).insertionSort (· ≤ ·)) data m)
      multiMetrics m t hl
    subst hbt
    rw [buildMetricTrend_values] at hlt
    unfold buildMetricTrend
    dsimp only
    rw [if_neg (by omega)]
  · rw [analyze_multi_period_lookup mpData "roas" (by decide)]
    simp only [Option.map_some']
    rw [show (pyDedup (mpData.map Prod.fst)).insertionSort (· ≤ ·) = [1, 3, 7]
      from by decide]
    have e1 : dget ((mpData.lookup (1 : Int)).getD []) "roas" = 10 := by
      simp [mpData, dget, List.lookup]
    have e3 : dget ((mpData.lookup (3 : Int)).getD []) "roas" = 10 := by
      simp [mpData, dget, List.lookup]
    have e7 : dget ((mpData.lookup (7 : Int)).getD []) "roas" = 5 := by
      simp [mpData, dget, List.lookup]
    unfold buildMetricTrend
    dsimp only
    simp only [List.map_cons, List.map_nil, e1, e3, e7, pyRound_ten, pyRound_five]
    norm_num [List.head?, List.getLast?]

/-- Witness for C6: with no periods at all the value sequence has fewer than
2 points and the classification is the insufficient-data label. -/
theorem claim_C6_witness :
    (analyze_multi_period ([] : List (Int × Dict))).metrics_trend.lookup "roas" =
      some (buildMetricTrend [] [] "roas") ∧
    (buildMetricTrend [] ([] : List (Int × Dict)) "roas").values.length < 2 ∧
    (buildMetricTrend [] ([] : List (Int × Dict)) "roas").trend_status = "unknown" := by
  have hl : (analyze_multi_period ([] : List (Int × Dict))).metrics_trend.lookup "roas" =
      some (buildMetricTrend [] [] "roas") :=
    analyze_multi_period_lookup [] "roas" (by decide)
  exact ⟨hl, by decide, claim_C6.2.2.2.1 [] "roas" _ hl (by decide)⟩

/-- Claim C7: the four account-level anomaly rules are independent (each kind
of anomaly is present in the output exactly when its own condition holds,
with the stated severity, whatever the other rules do, so all four can fire
together, as the all-fire input shows); and the example aggregate with
roas 1.0 under roas_min 2.0, spend 150 with no conversions over threshold
100, and cpc and frequency within bounds yields exactly the two critical
anomalies (ROAS and conversion). -/
theorem claim_C7 :
    (∀ (th : Thresholds) (data : Dict),
      ((∃ a ∈ _detect_account_anomalies th data,
          a.metric = "ROAS" ∧ a.severity = "critical") ↔
        dget data "roas" < th.roas_min) ∧
      ((∃ a ∈ _detect_account_anomalies th data,
          a.metric = "CPC" ∧ a.severity = "warning") ↔
        th.cpc_max < dget data "cpc") ∧
      ((∃ a ∈ _detect_account_anomalies th data,
          a.metric = "转化" ∧ a.severity = "critical") ↔
        (dget data "conversions" = 0 ∧ th.no_conversion_spend < dget data "spend")) ∧
      ((∃ a ∈ _detect_account_anomalies th data,
          a.metric = "Frequency" ∧ a.severity = "warning") ↔
        th.frequency_max < dget data "frequency")) ∧
    (_detect_account_anomalies defaultThresholds allFireData).length = 4 ∧
    (_detect_account_anomalies defaultThresholds anomalyData).map
      (fun a => (a.metric, a.severity)) =
      [("ROAS", "critical"), ("转化", "critical")] := by
  refine ⟨?_, ?_, ?_⟩
  · intro th data
    by_cases h1 : dget data "roas" < th.roas_min <;>
      by_cases h2 : th.cpc_max < dget data "cpc" <;>
      by_cases h3 : dget data "conversions" = 0 ∧
        th.no_conversion_spend < dget data "spend" <;>
      by_cases h4 : th.frequency_max < dget data "frequency" <;>
      simp [_detect_account_anomalies, h1, h2, h3, h4]
  · have e1 : dget allFireData "roas" = 1 := by simp [allFireData, dget, List.lookup]
    have e2 : dget allFireData "cpc" = 3 := by simp [allFireData, dget, List.lookup]
    have e3 : dget allFireData "conversions" = 0 := by
      simp [allFireData, dget, List.lookup]
    have e4 : dget allFireData "spend" = 150 := by simp [allFireData, dget, List.lookup]
    have e5 : dget allFireData "frequency" = 5 := by simp [allFireData, dget, List.lookup]
    unfold _detect_account_anomalies defaultThresholds
    rw [e1, e2, e3, e4, e5]
    norm_num
  · have e1 : dget anomalyData "roas" = 1 := by simp [anomalyData, dget, List.lookup]
    have e2 : dget anomalyData "cpc" = 0 := by simp [anomalyData, dget, List.lookup]
    have e3 : dget anomalyData "conversions" = 0 := by
      simp [anomalyData, dget, List.lookup]
    have e4 : dget anomalyData "spend" = 150 := by simp [anomalyData, dget, List.lookup]
    have e5 : dget anomalyData "frequency" = 0 := by
      simp [anomalyData, dget, List.lookup]
    unfold _detect_account_anomalies defaultThresholds
    rw [e1, e2, e3, e4, e5]
    norm_num

/-- Claim C8: the recommendation list assembled by _generate_insights is
de-duplicated preserving first occurrence and truncated to at most 5
entries: for every input the result has length at most 5 and no duplicates;
two distinct critical anomalies carrying identical suggestion text
contribute exactly one entry; six qualifying benchmark alerts still yield
only 5 entries. -/
theorem claim_C8 :
    (∀ (c : List (String × TrendEntry)) (t : MultiPeriodResult)
      (b : List (String × Bool)) (a : List Anomaly),
      (_generate_insights c t b a).length ≤ 5 ∧
      (_generate_insights c t b a).Nodup) ∧
    _generate_insights [] emptyMPR [] [anomA, anomB] = ["💡 S"] ∧
    (_generate_insights [] emptyMPR benchSix []).length = 5 := by
  refine ⟨?_, ?_, ?_⟩
  · intro c t b a
    unfold _generate_insights
    dsimp only
    constructor
    · rw [List.length_take]
      exact min_le_left _ _
    · exact (List.take_sublist _ _).nodup (pyDedup_nodup _)
  · decide
  · decide

theorem weekly_foldl_weekend : ∀ (l : List DailyRecord) (metric : String)
    (acc : List Rat × List Rat), allWeekday l = true →
    (l.foldl (weeklyStep metric) acc).2 = acc.2 := by
  intro l metric
  induction l with
  | nil => intro acc _; rfl
  | cons r l ih =>
    intro acc hall
    rw [allWeekday, List.all_cons, Bool.and_eq_true] at hall
    obtain ⟨hr, hl⟩ := hall
    rw [List.foldl_cons, ih _ hl]
    unfold weeklyStep
    by_cases hd : r.date_start = ""
    · rw [if_pos hd]
    · rw [if_neg hd]
      cases hp : parseDate r.date_start with
      | none => rfl
      | some dt =>
        rw [hp] at hr
        simp only [decide_eq_true_eq] at hr
        simp [hr]

/-- Claim C10: whenever every usable record falls on a weekday (the weekend
bucket stays empty), detect_weekly_pattern reports weekend average 0 and
ratio 0, and since 0 < 0.9 the pattern label is the weekend-stronger label
even though no weekend data exists. -/
theorem claim_C10 : ∀ (daily_data : List DailyRecord) (metric : String),
    allWeekday daily_data = true →
    (detect_weekly_pattern daily_data metric).weekend_avg = 0 ∧
    (detect_weekly_pattern daily_data metric).ratio = 0 ∧
    (detect_weekly_pattern daily_data metric).pattern = "周末表现更好" := by
  intro daily_data metric hall
  unfold detect_weekly_pattern
  dsimp only
  rw [weekly_foldl_weekend daily_data metric ([], []) hall]
  norm_num [pyRound_zero]

/-- Witness for C10: a single record on 2024-01-01, a Monday. -/
theorem claim_C10_witness :
    allWeekday weekdayDaily = true ∧
    (detect_weekly_pattern weekdayDaily "roas").pattern = "周末表现更好" :=
  ⟨by decide, (claim_C10 weekdayDaily "roas" (by decide)).2.2⟩

/-- Claim C1, counterexample: on a single row with spend 0, 10 clicks and 5
conversions the aggregate has conversion_rate 50, not 0, although spend is
0; and on a single row with 5 conversions and 0 clicks aggregation raises a
ZeroDivisionError (the conversion-rate division is guarded by conversions,
not by its own denominator clicks), contradicting the never-faults part. -/
theorem claim_C1_counterexample :
    aggSpend? (aggregate_metrics [rowSpendZero]) = some 0 ∧
    aggConversionRate? (aggregate_metrics [rowSpendZero]) = some 50 ∧
    aggregate_metrics [rowFaulty] = AggResult.fault := by
  have ht : totalsOf [rowSpendZero] = ⟨100, 10, 0, 5, 0, 1⟩ := by
    simp [totalsOf, rowSpendZero, pyDedup]
  have hagg : aggregate_metrics [rowSpendZero] =
      AggResult.ok ⟨100, 10, 0, 5, 0, 1, 10, 0, 0, 50, 0, 100⟩ := by
    norm_num [aggregate_metrics, ht]
  have ht2 : totalsOf [rowFaulty] = ⟨0, 0, 0, 5, 0, 1⟩ := by
    simp [totalsOf, rowFaulty, pyDedup]
  refine ⟨?_, ?_, ?_⟩
  · rw [hagg]; rfl
  · rw [hagg]; rfl
  · norm_num [aggregate_metrics, ht2]

/-- Claim C1 as amended: aggregation faults (ZeroDivisionError) exactly when
the summed conversions are positive while the summed clicks are 0; on every
non-faulting aggregate each derived field is 0 whenever its guard quantity
is not positive (impressions for ctr and frequency, clicks for cpc and, in
the absence of a fault, for conversion_rate, conversions for cpa and
conversion_rate, distinct days for frequency), and spend 0 forces roas, cpc
and cpa to 0 - but not conversion_rate, which is conversions/clicks x 100
and independent of spend. -/
theorem claim_C1_amended : ∀ data : List InsightRow,
    (aggregate_metrics data = AggResult.fault ↔
      (data ≠ [] ∧ 0 < (totalsOf data).conversions ∧ (totalsOf data).clicks = 0)) ∧
    (∀ a : MetricAggregate, aggregate_metrics data = AggResult.ok a →
      (a.impressions ≤ 0 → a.ctr = 0 ∧ a.frequency = 0) ∧
      (a.clicks = 0 → a.cpc = 0 ∧ a.conversion_rate = 0) ∧
      (a.conversions ≤ 0 → a.cpa = 0 ∧ a.conversion_rate = 0) ∧
      (a.days = 0 → a.frequency = 0) ∧
      (a.spend = 0 → a.roas = 0 ∧ a.cpc = 0 ∧ a.cpa = 0)) := by
  intro data
  constructor
  · unfold aggregate_metrics
    cases he : data.isEmpty with
    | true =>
      have hd : data = [] := List.isEmpty_iff.1 he
      subst hd
      simp
    | false =>
      have hd : data ≠ [] := by
        intro h; subst h; simp at he
      simp only [Bool.false_eq_true, if_false]
      by_cases hf : 0 < (totalsOf data).conversions ∧ (totalsOf data).clicks = 0
      · rw [if_pos hf]
        exact ⟨fun _ => ⟨hd, hf⟩, fun _ => rfl⟩
      · rw [if_neg hf]
        constructor
        · intro h; exact absurd h (by simp)
        · rintro ⟨-, hb, hc⟩; exact absurd ⟨hb, hc⟩ hf
  · intro a ha
    unfold aggregate_metrics at ha
    cases he : data.isEmpty with
    | true => rw [if_pos he] at ha; exact absurd ha (by simp)
    | false =>
      rw [he] at ha
      simp only [Bool.false_eq_true, if_false] at ha
      by_cases hf : 0 < (totalsOf data).conversions ∧ (totalsOf data).clicks = 0
      · rw [if_pos hf] at ha; exact absurd ha (by simp)
      · rw [if_neg hf] at ha
        rw [AggResult.ok.injEq] at ha
        subst ha
        refine ⟨?_, ?_, ?_, ?_, ?_⟩
        · intro h
          dsimp only at h ⊢
          rw [if_neg (by omega), if_neg (by rintro ⟨h1, -⟩; omega)]
          exact ⟨rfl, rfl⟩
        · intro h
          dsimp only at h ⊢
          have hnc : ¬ 0 < (totalsOf data).conversions := fun hc => hf ⟨hc, h⟩
          rw [if_neg (by omega), if_neg hnc]
          exact ⟨rfl, rfl⟩
        · intro h
          dsimp only at h ⊢
          rw [if_neg (by omega), if_neg (by omega)]
          exact ⟨rfl, rfl⟩
        · intro h
          dsimp only at h ⊢
          rw [if_neg (by rintro ⟨-, h2⟩; omega)]
        · intro h
          dsimp only at h ⊢
          rw [h]
          refine ⟨by rw [if_neg (by norm_num)], ?_, ?_⟩
          · split_ifs <;> simp
          · split_ifs <;> simp

/-- Witness for the amended C1 on the single all-zero row: aggregation
succeeds and the zero-spend aggregate has roas, cpc and cpa equal to 0. -/
theorem claim_C1_witness :
    aggregate_metrics [rowAllZero] = AggResult.ok aggAllZero ∧
    (aggAllZero.spend = 0 →
      aggAllZero.roas = 0 ∧ aggAllZero.cpc = 0 ∧ aggAllZero.cpa = 0) := by
  have ht : totalsOf [rowAllZero] = ⟨0, 0, 0, 0, 0, 1⟩ := by
    simp [totalsOf, rowAllZero, pyDedup]
  have hagg : aggregate_metrics [rowAllZero] = AggResult.ok aggAllZero := by
    norm_num [aggregate_metrics, ht, aggAllZero]
  exact ⟨hagg, fun _ =>
    ((claim_C1_amended [rowAllZero]).2 aggAllZero hagg).2.2.2.2 rfl⟩
